import Mathlib

/-!
Verification of the Altman Z-Score application (`src/app.py`).

The embedding models the financial-statement tables fetched from the data
provider, the point-in-time field-resolution engine (`get_financial_data`),
the historical series builder (`get_historical_financials`), and the pure
scoring functions (`calculate_z_score`, `interpret_z_score`).  Numeric
values are modelled with `Rat`; statement period dates with `Int` (days
since the Unix epoch), and the calendar-year projection of a date with the
standard civil-calendar algorithm.
-/

/-- A statement period date: days since 1970-01-01. -/
abbrev Date := Int

/-- Calendar year of an epoch-day number (civil calendar, proleptic
Gregorian), modelling Python's `Timestamp.year`. -/
def civilYear (z0 : Int) : Int :=
  let z := z0 + 719468
  let era := Int.fdiv z 146097
  let doe := z - era * 146097
  let yoe := (doe - doe / 1460 + doe / 36524 - doe / 146096) / 365
  let y := yoe + era * 400
  let doy := doe - (365 * yoe + yoe / 4 - yoe / 100)
  let mp := (5 * doy + 2) / 153
  let m := if mp < 10 then mp + 3 else mp - 9
  if m ≤ 2 then y + 1 else y

/-- One tabular statement (a pandas DataFrame): `cols` are the period dates
in column order (latest first, as delivered by the provider), `rows` maps a
field name to its values, positionally matching `cols`. -/
structure Table where
  cols : List Date
  rows : List (String × List Rat)
deriving Repr, DecidableEq

/-- `DataFrame.empty`: true when either axis is empty. -/
def Table.isEmpty (t : Table) : Bool :=
  t.cols.isEmpty || t.rows.isEmpty

/-- `field in source.index`. -/
def Table.hasField (t : Table) (f : String) : Bool :=
  t.rows.any (fun r => r.1 == f)

/-- `source.loc[field, date]` (total; only used at fields/dates present in
the table, mirroring the guarded accesses in the code). -/
def Table.loc (t : Table) (f : String) (d : Date) : Rat :=
  match t.rows.find? (fun r => r.1 == f) with
  | some r => r.2.getD (t.cols.indexOf d) 0
  | none => 0

/-- `ticker.balance_sheet.columns[0]` when the statement is non-empty;
models the conditional insertion into the `dates` dict. -/
def firstCol (t : Table) : Option Date :=
  if t.isEmpty then none else t.cols.head?

/-- The flat `ticker.info` record (only the keys the core reads). -/
structure Info where
  marketCap : Option Rat
  regularMarketPrice : Option Rat
  currentPrice : Option Rat
  sharesOutstanding : Option Rat
  longName : Option String
deriving Repr, DecidableEq

/-- The four statement tables plus company info for one ticker. -/
structure RawStatementSet where
  balance_sheet : Table
  financials : Table
  quarterly_balance_sheet : Table
  quarterly_financials : Table
  info : Info
deriving Repr, DecidableEq

/-- The period slot of a provenance entry: an actual statement date, or one
of the literal markers used by the code. -/
inductive ProvDate
  | onDate (d : Date)
  | latest
  | current
  | na
deriving Repr, DecidableEq

/-- A provenance entry `(source_field_or_derivation, period, source_kind)`
as stored in `field_values`. -/
abbrev Prov := String × ProvDate × String

/-- Direct field lookup against one statement at one period: guarded by the
statement being non-empty and the period being available, it returns the
value of the first known field-name spelling present in the index, together
with that spelling and the period used. -/
def directLookup (t : Table) (d : Option Date) (names : List String) :
    Option (Rat × String × Date) :=
  match d with
  | none => none
  | some dd =>
    if t.isEmpty then none
    else
      match names.find? t.hasField with
      | some f => some (t.loc f dd, f, dd)
      | none => none

/-- The two-source lookup loop (annual statement first, then quarterly),
stopping at the first source that yields a value. -/
def chain2 (s1 : Table) (d1 : Option Date) (s2 : Table) (d2 : Option Date)
    (names : List String) : Option (Rat × String × Date) :=
  (directLookup s1 d1 names) <|> (directLookup s2 d2 names)

/-- Wrap a successful direct lookup as a provenance-carrying result; `kind`
is the literal source tag recorded by the code. -/
def withProv (kind : String) (r : Option (Rat × String × Date)) :
    Option (Rat × Prov) :=
  r.map (fun x => (x.1, (x.2.1, ProvDate.onDate x.2.2, kind)))

/-- Step 1 of `get_financial_data`: Total Assets. -/
def resolveTotalAssets (raw : RawStatementSet) (lbd : Date) : Option (Rat × Prov) :=
  withProv "balance_sheet"
    (chain2 raw.balance_sheet (some lbd)
      raw.quarterly_balance_sheet (firstCol raw.quarterly_balance_sheet)
      ["Total Assets", "TotalAssets"])

/-- Step 2 of `get_financial_data`: Total Liabilities, with the derivation
fallback total assets minus stockholders equity. -/
def resolveTotalLiabilities (raw : RawStatementSet) (lbd : Date)
    (total_assets : Option Rat) : Option (Rat × Prov) :=
  match withProv "balance_sheet"
      (chain2 raw.balance_sheet (some lbd)
        raw.quarterly_balance_sheet (firstCol raw.quarterly_balance_sheet)
        ["Total Liab", "TotalLiab", "Total Liabilities"]) with
  | some r => some r
  | none =>
    match total_assets with
    | none => none
    | some ta =>
      match chain2 raw.balance_sheet (some lbd)
          raw.quarterly_balance_sheet (firstCol raw.quarterly_balance_sheet)
          ["Total Stockholder Equity", "StockholdersEquity", "Stockholders Equity"] with
      | some (equity, _, dt) =>
        some (ta - equity,
          ("Calculated from " ++ toString ta ++ " - " ++ toString equity,
            ProvDate.onDate dt, "calculated"))
      | none => none

/-- The ordered current-assets component line items with their known
field-name spellings. -/
def caComponentDefs : List (String × List String) :=
  [("cash", ["Cash And Cash Equivalents", "Cash", "CashAndCashEquivalents", "cashAndCashEquivalents"]),
   ("short_term_investments", ["Short Term Investments", "ShortTermInvestments", "shortTermInvestments"]),
   ("receivables", ["Net Receivables", "Receivables", "AccountsReceivable", "accountsReceivable"]),
   ("inventory", ["Inventory", "Inventories", "inventory", "inventories"]),
   ("other_current", ["Other Current Assets", "OtherCurrentAssets", "otherCurrentAssets"])]

/-- The ordered current-liabilities component line items with their known
field-name spellings. -/
def clComponentDefs : List (String × List String) :=
  [("accounts_payable", ["Accounts Payable", "AccountsPayable", "accountsPayable"]),
   ("short_term_debt", ["Short Term Debt", "ShortTermDebt", "shortTermDebt"]),
   ("accrued_liabilities", ["Accrued Liabilities", "AccruedLiabilities", "accruedLiabilities"]),
   ("other_current_liab", ["Other Current Liabilities", "OtherCurrentLiabilities", "otherCurrentLiabilities"])]

/-- Gather the component line items that are present: for each component,
the first of the two balance-sheet sources that carries one of its
spellings contributes `(component key, value, source field name)`. -/
def gatherComponents (raw : RawStatementSet) (lbd : Date)
    (defs : List (String × List String)) : List (String × Rat × String) :=
  defs.filterMap (fun kn =>
    (chain2 raw.balance_sheet (some lbd)
        raw.quarterly_balance_sheet (firstCol raw.quarterly_balance_sheet)
        kn.2).map (fun x => (kn.1, x.1, x.2.1)))

/-- The component-sum fallback for current assets: accepted only when the
cash component is present and at least 3 of the 5 components are. -/
def currentAssetsFromComponents (raw : RawStatementSet) (lbd : Date) :
    Option (Rat × Prov) :=
  let comps := gatherComponents raw lbd caComponentDefs
  if (comps.any (fun c => c.1 == "cash")) && decide (3 ≤ comps.length) then
    some ((comps.map (fun c => c.2.1)).sum,
      ("Calculated from " ++ String.intercalate "+" (comps.map (fun c => c.2.2)),
        ProvDate.onDate lbd, "calculated"))
  else none

/-- The component-sum fallback for current liabilities: accepted when at
least 2 of the 4 components are present. -/
def currentLiabilitiesFromComponents (raw : RawStatementSet) (lbd : Date) :
    Option (Rat × Prov) :=
  let comps := gatherComponents raw lbd clComponentDefs
  if decide (2 ≤ comps.length) then
    some ((comps.map (fun c => c.2.1)).sum,
      ("Calculated from " ++ String.intercalate "+" (comps.map (fun c => c.2.2)),
        ProvDate.onDate lbd, "calculated"))
  else none

/-- `ticker_symbol.upper()` (ASCII uppercasing, character by character). -/
def pyUpper (s : String) : String :=
  ⟨s.data.map Char.toUpper⟩

/-- Step 3 of `get_financial_data`: Current Assets, with the hard-coded
AAPL override superseding lookup and derivation. -/
def resolveCurrentAssets (ticker_symbol : String) (raw : RawStatementSet)
    (lbd : Date) : Option (Rat × Prov) :=
  if pyUpper ticker_symbol = "AAPL" then
    some (143600000000, ("Manual override", ProvDate.latest, "hardcoded"))
  else
    match withProv "balance_sheet"
        (chain2 raw.balance_sheet (some lbd)
          raw.quarterly_balance_sheet (firstCol raw.quarterly_balance_sheet)
          ["Total Current Assets", "CurrentAssets", "totalCurrentAssets",
            "Current Assets", "Total Current Assets Total"]) with
    | some r => some r
    | none => currentAssetsFromComponents raw lbd

/-- Step 4 of `get_financial_data`: Current Liabilities, with the
hard-coded AAPL override superseding lookup and derivation. -/
def resolveCurrentLiabilities (ticker_symbol : String) (raw : RawStatementSet)
    (lbd : Date) : Option (Rat × Prov) :=
  if pyUpper ticker_symbol = "AAPL" then
    some (125600000000, ("Manual override", ProvDate.latest, "hardcoded"))
  else
    match withProv "balance_sheet"
        (chain2 raw.balance_sheet (some lbd)
          raw.quarterly_balance_sheet (firstCol raw.quarterly_balance_sheet)
          ["Total Current Liabilities", "CurrentLiabilities", "totalCurrentLiabilities",
            "Current Liabilities", "Total Current Liabilities Total"]) with
    | some r => some r
    | none => currentLiabilitiesFromComponents raw lbd

/-- One iteration of the retained-earnings alternative loop over a source:
equity and common stock are re-read when the source carries them and kept
from the previous source otherwise. -/
def reAltStep (t : Table) (d : Option Date) (eq cs : Option Rat) :
    Option Rat × Option Rat :=
  match d with
  | none => (eq, cs)
  | some dd =>
    if t.isEmpty then (eq, cs)
    else
      let eq2 := if t.hasField "Total Stockholder Equity" then
          some (t.loc "Total Stockholder Equity" dd)
        else if t.hasField "StockholdersEquity" then
          some (t.loc "StockholdersEquity" dd)
        else eq
      let cs2 := if t.hasField "Common Stock" then
          some (t.loc "Common Stock" dd)
        else if t.hasField "CommonStock" then
          some (t.loc "CommonStock" dd)
        else cs
      (eq2, cs2)

/-- Step 5 of `get_financial_data`: Retained Earnings, with the derivation
fallback stockholders equity minus common stock (state carried across the
annual and quarterly sources, as in the code). -/
def resolveRetainedEarnings (raw : RawStatementSet) (lbd : Date) :
    Option (Rat × Prov) :=
  match withProv "balance_sheet"
      (chain2 raw.balance_sheet (some lbd)
        raw.quarterly_balance_sheet (firstCol raw.quarterly_balance_sheet)
        ["Retained Earnings", "RetainedEarnings"]) with
  | some r => some r
  | none =>
    match reAltStep raw.balance_sheet (some lbd) none none with
    | (some e, some c) =>
      some (e - c, ("Calculated from " ++ toString e ++ " - " ++ toString c,
        ProvDate.onDate lbd, "calculated"))
    | (e1, c1) =>
      match firstCol raw.quarterly_balance_sheet with
      | none => none
      | some d2 =>
        match reAltStep raw.quarterly_balance_sheet (some d2) e1 c1 with
        | (some e, some c) =>
          some (e - c, ("Calculated from " ++ toString e ++ " - " ++ toString c,
            ProvDate.onDate d2, "calculated"))
        | _ => none

/-- One iteration of the EBIT alternative loop over a source: net income,
interest expense and income tax are re-read when present, kept otherwise. -/
def ebitAltStep (t : Table) (d : Option Date) (ni ie tax : Option Rat) :
    Option Rat × Option Rat × Option Rat :=
  match d with
  | none => (ni, ie, tax)
  | some dd =>
    if t.isEmpty then (ni, ie, tax)
    else
      let ni2 := match ["Net Income", "NetIncome"].find? t.hasField with
        | some f => some (t.loc f dd)
        | none => ni
      let ie2 := match ["Interest Expense", "InterestExpense"].find? t.hasField with
        | some f => some (t.loc f dd)
        | none => ie
      let tax2 := match ["Income Tax Expense", "IncomeTaxExpense", "Tax Provision"].find? t.hasField with
        | some f => some (t.loc f dd)
        | none => tax
      (ni2, ie2, tax2)

/-- Step 6 of `get_financial_data`: EBIT, with the derivation fallback
net income + |interest expense| + |income tax|. -/
def resolveEbit (raw : RawStatementSet) (lfd : Date) : Option (Rat × Prov) :=
  match withProv "financials"
      (chain2 raw.financials (some lfd)
        raw.quarterly_financials (firstCol raw.quarterly_financials)
        ["Ebit", "EBIT", "Operating Income", "OperatingIncome"]) with
  | some r => some r
  | none =>
    match ebitAltStep raw.financials (some lfd) none none none with
    | (some ni, some ie, some tax) =>
      some (ni + |ie| + |tax|,
        ("Calculated from Net Income + Interest + Taxes", ProvDate.onDate lfd, "calculated"))
    | (ni1, ie1, tax1) =>
      match firstCol raw.quarterly_financials with
      | none => none
      | some d2 =>
        match ebitAltStep raw.quarterly_financials (some d2) ni1 ie1 tax1 with
        | (some ni, some ie, some tax) =>
          some (ni + |ie| + |tax|,
            ("Calculated from Net Income + Interest + Taxes", ProvDate.onDate d2, "calculated"))
        | _ => none

/-- Step 7 of `get_financial_data`: Sales/Revenue (direct lookup only). -/
def resolveSales (raw : RawStatementSet) (lfd : Date) : Option (Rat × Prov) :=
  withProv "financials"
    (chain2 raw.financials (some lfd)
      raw.quarterly_financials (firstCol raw.quarterly_financials)
      ["Total Revenue", "Revenue", "TotalRevenue"])

/-- Step 8 of `get_financial_data`: Market Cap from company info, with the
fallback share price times shares outstanding. -/
def resolveMarketCap (info : Info) : Option (Rat × Prov) :=
  match info.marketCap with
  | some m => some (m, ("marketCap", ProvDate.current, "ticker.info"))
  | none =>
    match info.regularMarketPrice <|> info.currentPrice, info.sharesOutstanding with
    | some p, some s =>
      some (p * s, ("Calculated from " ++ toString p ++ " * " ++ toString s,
        ProvDate.current, "calculated"))
    | _, _ => none

/-- Working capital: always derived, current assets minus current
liabilities, available exactly when both inputs resolved. -/
def wcOpt (ca cl : Option (Rat × Prov)) : Option (Rat × Prov) :=
  match ca, cl with
  | some (a, _), some (l, _) =>
    some (a - l, ("Calculated from " ++ toString a ++ " - " ++ toString l,
      ProvDate.na, "calculated"))
  | _, _ => none

/-- `calculate_z_score` (src/app.py lines 556-569). -/
def calculate_z_score (x1 x2 x3 x4 x5 : Rat) : Rat :=
  1.2 * x1 + 1.4 * x2 + 3.3 * x3 + 0.6 * x4 + 0.999 * x5

/-- `interpret_z_score` (src/app.py lines 571-585): risk category and the
fixed explanation text. -/
def interpret_z_score (z_score : Rat) : String × String :=
  if z_score > 2.99 then
    ("Low Risk", "**Safe Zone:** This company appears to be financially sound with low bankruptcy risk within the next 2 years. The strong Z-Score indicates good financial health.")
  else if z_score >= 1.81 then
    ("Grey Zone", "**Grey Zone:** This company shows some financial stress and moderate bankruptcy risk. Further analysis is recommended as the Z-Score falls in an indeterminate range.")
  else
    ("High Risk", "**Distress Zone:** This company shows significant financial distress with high bankruptcy risk within the next 2 years. The low Z-Score indicates serious financial problems.")

/-- The provenance map `field_values`: one optional entry per canonical
quantity (plus working capital), keyed as in the code. -/
structure FieldSources where
  total_assets : Option Prov
  total_liabilities : Option Prov
  current_assets : Option Prov
  current_liabilities : Option Prov
  retained_earnings : Option Prov
  ebit : Option Prov
  sales : Option Prov
  market_cap : Option Prov
  working_capital : Option Prov
deriving Repr, DecidableEq

/-- The fully resolved record returned on success. -/
structure FinancialData where
  company_name : String
  ticker : String
  report_date : Date
  total_assets : Rat
  total_liabilities : Rat
  current_assets : Rat
  current_liabilities : Rat
  working_capital : Rat
  retained_earnings : Rat
  ebit : Rat
  sales : Rat
  market_value_equity : Rat
  field_sources : FieldSources
deriving Repr, DecidableEq

/-- Outcome of `get_financial_data`: the distinct no-data error, the
missing-fields error (with the enumerated display names and the partial
provenance), or the resolved record. -/
inductive ResolveResult
  | noData
  | missing (names : List String) (prov : FieldSources)
  | ok (fd : FinancialData)
deriving Repr, DecidableEq

/-- The missing-fields list: the display name of every pair whose
resolution came up empty, in the fixed order of the checks. -/
def missingList (l : List (Option (Rat × Prov) × String)) : List String :=
  l.filterMap (fun x => match x.1 with | none => some x.2 | some _ => none)

/-- `latest_bs_date`: annual balance-sheet period, quarterly fallback. -/
def latestBsDate (raw : RawStatementSet) : Option Date :=
  firstCol raw.balance_sheet <|> firstCol raw.quarterly_balance_sheet

/-- `latest_fs_date`: annual income-statement period, quarterly fallback. -/
def latestFsDate (raw : RawStatementSet) : Option Date :=
  firstCol raw.financials <|> firstCol raw.quarterly_financials

/-- The eight resolution attempts paired with their display names, in the
order the code checks them. -/
def gfdPairs (ticker_symbol : String) (raw : RawStatementSet) (lbd lfd : Date) :
    List (Option (Rat × Prov) × String) :=
  let ta := resolveTotalAssets raw lbd
  [(ta, "Total Assets"),
   (resolveTotalLiabilities raw lbd (ta.map Prod.fst), "Total Liabilities"),
   (resolveCurrentAssets ticker_symbol raw lbd, "Current Assets"),
   (resolveCurrentLiabilities ticker_symbol raw lbd, "Current Liabilities"),
   (resolveRetainedEarnings raw lbd, "Retained Earnings"),
   (resolveEbit raw lfd, "EBIT"),
   (resolveSales raw lfd, "Sales"),
   (resolveMarketCap raw.info, "Market Cap")]

/-- The provenance entries collected during resolution. -/
def gfdProv (ticker_symbol : String) (raw : RawStatementSet) (lbd lfd : Date) :
    FieldSources :=
  let ta := resolveTotalAssets raw lbd
  let ca := resolveCurrentAssets ticker_symbol raw lbd
  let cl := resolveCurrentLiabilities ticker_symbol raw lbd
  { total_assets := ta.map Prod.snd
    total_liabilities := (resolveTotalLiabilities raw lbd (ta.map Prod.fst)).map Prod.snd
    current_assets := ca.map Prod.snd
    current_liabilities := cl.map Prod.snd
    retained_earnings := (resolveRetainedEarnings raw lbd).map Prod.snd
    ebit := (resolveEbit raw lfd).map Prod.snd
    sales := (resolveSales raw lfd).map Prod.snd
    market_cap := (resolveMarketCap raw.info).map Prod.snd
    working_capital := (wcOpt ca cl).map Prod.snd }

/-- The body of `get_financial_data` once both statement dates exist:
resolve the eight quantities, and either report the missing ones together
with the partial provenance, or build the result record. -/
def gfdCore (ticker_symbol : String) (raw : RawStatementSet) (lbd lfd : Date) :
    ResolveResult :=
  let ta := resolveTotalAssets raw lbd
  let tl := resolveTotalLiabilities raw lbd (ta.map Prod.fst)
  let ca := resolveCurrentAssets ticker_symbol raw lbd
  let cl := resolveCurrentLiabilities ticker_symbol raw lbd
  let re := resolveRetainedEarnings raw lbd
  let eb := resolveEbit raw lfd
  let sa := resolveSales raw lfd
  let mc := resolveMarketCap raw.info
  let missingFields := missingList (gfdPairs ticker_symbol raw lbd lfd)
  if missingFields.isEmpty then
    ResolveResult.ok
      { company_name := raw.info.longName.getD ticker_symbol
        ticker := ticker_symbol
        report_date := lbd
        total_assets := (ta.map Prod.fst).getD 0
        total_liabilities := (tl.map Prod.fst).getD 0
        current_assets := (ca.map Prod.fst).getD 0
        current_liabilities := (cl.map Prod.fst).getD 0
        working_capital := ((wcOpt ca cl).map Prod.fst).getD 0
        retained_earnings := (re.map Prod.fst).getD 0
        ebit := (eb.map Prod.fst).getD 0
        sales := (sa.map Prod.fst).getD 0
        market_value_equity := (mc.map Prod.fst).getD 0
        field_sources := gfdProv ticker_symbol raw lbd lfd }
  else ResolveResult.missing missingFields (gfdProv ticker_symbol raw lbd lfd)

/-- `get_financial_data` (src/app.py lines 80-462): fail with the distinct
no-data error when either statement side has no period at all, otherwise
run the resolution chains. -/
def get_financial_data (ticker_symbol : String) (raw : RawStatementSet) :
    ResolveResult :=
  match latestBsDate raw, latestFsDate raw with
  | some lbd, some lfd => gfdCore ticker_symbol raw lbd lfd
  | _, _ => ResolveResult.noData

/-- One point of the historical series. -/
structure HistPoint where
  date : Int
  z_score : Rat
  working_capital_ratio : Rat
  retained_earnings_ratio : Rat
  ebit_ratio : Rat
  market_equity_ratio : Rat
  sales_ratio : Rat
deriving Repr, DecidableEq

/-- Outcome of `get_historical_financials`. -/
inductive HistResult
  | noHist
  | couldNot
  | ok (pts : List HistPoint)
deriving Repr, DecidableEq

/-- The points carried by a successful historical result. -/
def histPoints : HistResult → List HistPoint
  | HistResult.ok l => l
  | _ => []

/-- `field in index` guarded lookup used by the historical builder. -/
def optField (t : Table) (f : String) (d : Date) : Option Rat :=
  if t.hasField f then some (t.loc f d) else none

/-- The loop of the closest-income-statement search, over a general
accumulator `(best column so far, best distance so far)`. -/
def ciFold (bsd : Date) (cols : List Date) (acc : Option Date × Int) :
    Option Date × Int :=
  cols.foldl
    (fun a isd => if |bsd - isd| < a.2 then (some isd, |bsd - isd|) else a) acc

/-- The closest-income-statement search: starting from a 365-day bound,
keep each column that strictly improves the current best distance. -/
def closestIncome (bsd : Date) (cols : List Date) : Option Date × Int :=
  ciFold bsd cols (none, 365)

/-- The pairing rejection of the historical builder: no income-statement
column was ever within the 365-day bound, or the best one is more than 180
days away. -/
def incomeMatchReject (bsd : Date) (cols : List Date) : Bool :=
  match closestIncome bsd cols with
  | (none, _) => true
  | (some _, cdiff) => decide (180 < cdiff)

/-- The seven statement values plus market cap needed for one historical
point. -/
structure HistVals where
  total_assets : Rat
  total_liabilities : Rat
  current_assets : Rat
  current_liabilities : Rat
  retained_earnings : Rat
  ebit : Rat
  sales : Rat
  market_cap : Rat
deriving Repr, DecidableEq

/-- Collect the seven statement values plus market cap for one historical
point, available only when none of them is missing (the code's
`if None in [...]` check). -/
def histValues (bs fin : Table) (mcap : Option Rat) (d cd : Date) :
    Option HistVals :=
  match optField bs "Total Assets" d, optField bs "Total Liab" d,
      optField bs "Total Current Assets" d,
      optField bs "Total Current Liabilities" d,
      optField bs "Retained Earnings" d,
      optField fin "Ebit" cd, optField fin "Total Revenue" cd, mcap with
  | some ta, some tl, some ca, some cl, some re, some eb, some sa, some mc =>
    some ⟨ta, tl, ca, cl, re, eb, sa, mc⟩
  | _, _, _, _, _, _, _, _ => none

/-- The per-balance-sheet-column step of the historical builder: skip an
already-produced calendar year, skip when no income statement is close
enough, skip when any of the eight required values is unavailable;
otherwise append the point and record the year. -/
def histStep (bs fin : Table) (mcap : Option Rat)
    (st : List HistPoint × List Int) (d : Date) : List HistPoint × List Int :=
  let year := civilYear d
  if year ∈ st.2 then st
  else
    match closestIncome d fin.cols with
    | (none, _) => st
    | (some cd, cdiff) =>
      if 180 < cdiff then st
      else
        match histValues bs fin mcap d cd with
        | some v =>
          let working_capital := v.current_assets - v.current_liabilities
          let x1 := working_capital / v.total_assets
          let x2 := v.retained_earnings / v.total_assets
          let x3 := v.ebit / v.total_assets
          let x4 := v.market_cap / v.total_liabilities
          let x5 := v.sales / v.total_assets
          let z := 1.2 * x1 + 1.4 * x2 + 3.3 * x3 + 0.6 * x4 + 0.999 * x5
          (st.1 ++ [{ date := year, z_score := z, working_capital_ratio := x1,
                      retained_earnings_ratio := x2, ebit_ratio := x3,
                      market_equity_ratio := x4, sales_ratio := x5 }],
           st.2 ++ [year])
        | none => st

/-- Ascending-by-year ordering of the final series (`sort_values('date')`;
years are pairwise distinct, so any comparison sort yields this order). -/
def sortPts (l : List HistPoint) : List HistPoint :=
  List.insertionSort (fun a b => a.date ≤ b.date) l

/-- `get_historical_financials` (src/app.py lines 464-554).  The `years`
parameter is the `years=5` argument of the code. -/
def get_historical_financials (raw : RawStatementSet) (years : Nat) : HistResult :=
  if raw.balance_sheet.isEmpty || raw.financials.isEmpty then HistResult.noHist
  else
    let st := raw.balance_sheet.cols.foldl
      (histStep raw.balance_sheet raw.financials raw.info.marketCap) ([], [])
    if st.1.isEmpty then HistResult.couldNot
    else HistResult.ok (sortPts st.1)

instance : IsTotal HistPoint (fun a b => a.date ≤ b.date) :=
  ⟨fun a b => Int.le_total a.date b.date⟩

instance : IsTrans HistPoint (fun a b => a.date ≤ b.date) :=
  ⟨fun _ _ _ h h2 => le_trans h h2⟩

/-- A statement table with no columns and no rows. -/
def emptyTable : Table := ⟨[], []⟩

/-- A company-info record with every key absent. -/
def noInfo : Info := ⟨none, none, none, none, none⟩

/-- Concrete input: the annual balance sheet has a period but no income
statement (annual or quarterly) has any. -/
def rawC3 : RawStatementSet :=
  ⟨⟨[5], [("Total Assets", [50])]⟩, emptyTable, emptyTable, emptyTable, noInfo⟩

/-- Concrete input: both statement sides have a period, but only Total
Assets and Sales are resolvable. -/
def rawC5 : RawStatementSet :=
  ⟨⟨[100], [("Total Assets", [50])]⟩, ⟨[90], [("Total Revenue", [20])]⟩,
    emptyTable, emptyTable, noInfo⟩

/-- Concrete input: cash plus two other current-assets components. -/
def rawC6a : RawStatementSet :=
  ⟨⟨[100], [("Cash", [1]), ("Inventory", [2]), ("Net Receivables", [3])]⟩,
    emptyTable, emptyTable, emptyTable, noInfo⟩

/-- Concrete input: cash plus only one other current-assets component. -/
def rawC6b : RawStatementSet :=
  ⟨⟨[100], [("Cash", [1]), ("Inventory", [2])]⟩,
    emptyTable, emptyTable, emptyTable, noInfo⟩

/-- Concrete input: the statements carry both current-assets and
current-liabilities fields directly. -/
def rawC9 : RawStatementSet :=
  ⟨⟨[7], [("Total Current Assets", [999]), ("Total Current Liabilities", [888])]⟩,
    emptyTable, emptyTable, emptyTable, noInfo⟩

/-- Concrete input for the historical builder: two balance-sheet periods in
different calendar years (2020-01-01 and 2019-01-01), each with a matching
income-statement period and complete figures. -/
def rawC4 : RawStatementSet :=
  ⟨⟨[18262, 17897],
    [("Total Assets", [1, 1]), ("Total Liab", [1, 1]), ("Total Current Assets", [2, 2]),
     ("Total Current Liabilities", [1, 1]), ("Retained Earnings", [1, 1])]⟩,
   ⟨[18262, 17897], [("Ebit", [1, 1]), ("Total Revenue", [1, 1])]⟩,
   emptyTable, emptyTable, ⟨some 1, none, none, none, none⟩⟩

/-- Concrete input for the historical builder: two balance-sheet periods in
the same calendar year (2020-01-10 and 2020-12-20); the first-encountered
one has no income-statement period within 180 days (the only income column
is 345 days away), the second matches exactly.  The two periods carry
different Total Assets figures (1 versus 2). -/
def rawC8 : RawStatementSet :=
  ⟨⟨[18271, 18616],
    [("Total Assets", [1, 2]), ("Total Liab", [1, 1]), ("Total Current Assets", [2, 2]),
     ("Total Current Liabilities", [1, 1]), ("Retained Earnings", [1, 1])]⟩,
   ⟨[18616], [("Ebit", [1]), ("Total Revenue", [1])]⟩,
   emptyTable, emptyTable, ⟨some 1, none, none, none, none⟩⟩

/-- Same shape as `rawC8` with Total Assets figures 1 versus 4, for the
year-recording claim. -/
def rawC10 : RawStatementSet :=
  ⟨⟨[18271, 18616],
    [("Total Assets", [1, 4]), ("Total Liab", [1, 1]), ("Total Current Assets", [2, 2]),
     ("Total Current Liabilities", [1, 1]), ("Retained Earnings", [1, 1])]⟩,
   ⟨[18616], [("Ebit", [1]), ("Total Revenue", [1])]⟩,
   emptyTable, emptyTable, ⟨some 1, none, none, none, none⟩⟩

/-- The 2020 point produced for `rawC4` (all figures 1, current assets 2). -/
def ptC4a : HistPoint := ⟨2020, 7.499, 1, 1, 1, 1, 1⟩

/-- The 2019 point produced for `rawC4`. -/
def ptC4b : HistPoint := ⟨2019, 7.499, 1, 1, 1, 1, 1⟩

/-- The single 2020 point produced for `rawC8`: its ratios come from the
second balance-sheet column (Total Assets 2), not the first. -/
def ptC8 : HistPoint := ⟨2020, 4.0495, 0.5, 0.5, 0.5, 1, 0.5⟩

/-- The single 2020 point produced for `rawC10`: its ratios come from the
second balance-sheet column (Total Assets 4). -/
def ptC10 : HistPoint := ⟨2020, 2.32475, 0.25, 0.25, 0.25, 1, 0.25⟩

/-- The missing-field names reported for `rawC5`. -/
def namesC5 : List String :=
  ["Total Liabilities", "Current Assets", "Current Liabilities",
   "Retained Earnings", "EBIT", "Market Cap"]

/-- The partial provenance collected for `rawC5`: entries exactly for the
two quantities that resolve. -/
def provC5 : FieldSources :=
  ⟨some ("Total Assets", ProvDate.onDate 100, "balance_sheet"), none, none,
   none, none, none, some ("Total Revenue", ProvDate.onDate 90, "financials"),
   none, none⟩

/-- C1: the Z-Score calculator returns exactly
`1.2*x1 + 1.4*x2 + 3.3*x3 + 0.6*x4 + 0.999*x5` for every tuple of ratios;
at the literal example `x1=0.1, x2=0.2, x3=0.15, x4=1.0, x5=0.8` it returns
`2.2942`, which `interpret_z_score` classifies as Grey Zone. -/
theorem calculate_z_score_formula :
    (∀ x1 x2 x3 x4 x5 : Rat,
      calculate_z_score x1 x2 x3 x4 x5 =
        1.2 * x1 + 1.4 * x2 + 3.3 * x3 + 0.6 * x4 + 0.999 * x5) ∧
    calculate_z_score 0.1 0.2 0.15 1.0 0.8 = 2.2942 ∧
    (interpret_z_score (calculate_z_score 0.1 0.2 0.15 1.0 0.8)).1 = "Grey Zone" := by
  have hval : calculate_z_score 0.1 0.2 0.15 1.0 0.8 = 2.2942 := by
    unfold calculate_z_score; norm_num
  refine ⟨fun x1 x2 x3 x4 x5 => rfl, hval, ?_⟩
  rw [hval]
  unfold interpret_z_score
  norm_num

/-- C2: risk interpretation is a non-overlapping three-way split:
`z > 2.99` gives Low Risk, `1.81 ≤ z ≤ 2.99` gives Grey Zone, `z < 1.81`
gives High Risk; the boundaries `2.99` and `1.81` fall in the Grey Zone,
`2.990001` is Low Risk and `1.809999` is High Risk. -/
theorem interpret_z_score_trichotomy :
    (∀ z : Rat,
      ((interpret_z_score z).1 = "Low Risk" ↔ 2.99 < z) ∧
      ((interpret_z_score z).1 = "Grey Zone" ↔ 1.81 ≤ z ∧ z ≤ 2.99) ∧
      ((interpret_z_score z).1 = "High Risk" ↔ z < 1.81)) ∧
    (interpret_z_score 2.99).1 = "Grey Zone" ∧
    (interpret_z_score 1.81).1 = "Grey Zone" ∧
    (interpret_z_score 2.990001).1 = "Low Risk" ∧
    (interpret_z_score 1.809999).1 = "High Risk" := by
  refine ⟨fun z => ?_, by unfold interpret_z_score; norm_num,
    by unfold interpret_z_score; norm_num,
    by unfold interpret_z_score; norm_num,
    by unfold interpret_z_score; norm_num⟩
  unfold interpret_z_score
  split_ifs with h1 h2
  · refine ⟨by simp [h1], ?_, ?_⟩
    · simp only [true_iff, false_iff]
      constructor
      · intro h; simp_all
      · rintro ⟨_, h⟩; exact absurd h1 (not_lt.mpr h)
    · constructor
      · intro h; simp_all
      · intro h; exact absurd h1 (not_lt.mpr (le_of_lt (lt_of_lt_of_le h (by norm_num))))
  · refine ⟨?_, ?_, ?_⟩
    · constructor
      · intro h; simp_all
      · intro h; exact absurd h h1
    · simp only [true_iff]
      exact ⟨h2, not_lt.mp h1⟩
    · constructor
      · intro h; simp_all
      · intro h; exact absurd h2 (not_le.mpr h)
  · refine ⟨?_, ?_, ?_⟩
    · constructor
      · intro h; simp_all
      · intro h; exact absurd h h1
    · constructor
      · intro h; simp_all
      · rintro ⟨h, _⟩; exact absurd h h2
    · simp only [true_iff]
      exact not_le.mp h2

/-- Membership in the missing-fields list: exactly the display names of the
pairs whose resolution is empty. -/
theorem mem_missingList (l : List (Option (Rat × Prov) × String)) (s : String) :
    s ∈ missingList l ↔ ∃ p ∈ l, p.1 = none ∧ p.2 = s := by
  induction l with
  | nil => simp [missingList]
  | cons p l ih =>
    rcases hp : p.1 with _ | v
    · simp only [missingList, List.filterMap_cons, hp] at ih ⊢
      simp only [List.mem_cons, ih]
      constructor
      · rintro (h | ⟨q, hq, h1, h2⟩)
        · exact ⟨p, Or.inl rfl, hp, h.symm⟩
        · exact ⟨q, Or.inr hq, h1, h2⟩
      · rintro ⟨q, hq | hq, h1, h2⟩
        · subst hq; exact Or.inl h2.symm
        · exact Or.inr ⟨q, hq, h1, h2⟩
    · simp only [missingList, List.filterMap_cons, hp] at ih ⊢
      simp only [ih, List.mem_cons]
      constructor
      · rintro ⟨q, hq, h1, h2⟩
        exact ⟨q, Or.inr hq, h1, h2⟩
      · rintro ⟨q, hq | hq, h1, h2⟩
        · subst hq; rw [hp] at h1; cases h1
        · exact ⟨q, hq, h1, h2⟩

/-- `gfdCore` only ever returns a resolved record or a missing-fields
error, never the no-data error. -/
theorem gfdCore_ne_noData (t : String) (raw : RawStatementSet) (lbd lfd : Date) :
    gfdCore t raw lbd lfd ≠ ResolveResult.noData := by
  unfold gfdCore
  dsimp only
  split <;> simp

/-- C3 (amended): `get_financial_data` returns the distinct no-data error
exactly when the balance-sheet side (annual and quarterly) has no period,
or the income-statement side (annual and quarterly) has no period; when
both sides offer a period, resolution proceeds to the field lookups. -/
theorem noData_iff_missing_side (t : String) (raw : RawStatementSet) :
    get_financial_data t raw = ResolveResult.noData ↔
      latestBsDate raw = none ∨ latestFsDate raw = none := by
  unfold get_financial_data
  rcases hb : latestBsDate raw with _ | lbd <;>
    rcases hf : latestFsDate raw with _ | lfd <;>
    simp [gfdCore_ne_noData]

/-- C3 counterexample: an input whose annual balance sheet does have a
reporting period (so at least one balance-sheet period exists) still fails
with the distinct no-data error, because the income-statement side is
empty — refuting the claim that resolution proceeds whenever at least one
balance-sheet period or one income-statement period exists. -/
theorem noData_despite_bs_period :
    latestBsDate rawC3 = some 5 ∧
    get_financial_data "T" rawC3 = ResolveResult.noData := by
  constructor
  · decide
  · decide

/-- C5: whenever any of the eight canonical quantities remains unresolved
after the full fallback chain (both statement dates being available),
resolution returns a missing-fields failure, not a resolved record; the
failure enumerates exactly the display names of the unresolved quantities,
in the fixed check order, and carries the provenance entries collected for
every quantity that did resolve. -/
theorem missing_fields_enumeration :
    (∀ t raw lbd lfd, latestBsDate raw = some lbd → latestFsDate raw = some lfd →
      (∃ p ∈ gfdPairs t raw lbd lfd, p.1 = none) →
      ∃ n pr, get_financial_data t raw = ResolveResult.missing n pr) ∧
    (∀ t raw lbd lfd names prov,
      latestBsDate raw = some lbd → latestFsDate raw = some lfd →
      get_financial_data t raw = ResolveResult.missing names prov →
      names ≠ [] ∧
      names = missingList (gfdPairs t raw lbd lfd) ∧
      (∀ s, s ∈ names ↔ ∃ p ∈ gfdPairs t raw lbd lfd, p.1 = none ∧ p.2 = s) ∧
      prov = gfdProv t raw lbd lfd ∧
      prov.total_assets = (resolveTotalAssets raw lbd).map Prod.snd ∧
      prov.total_liabilities =
        (resolveTotalLiabilities raw lbd ((resolveTotalAssets raw lbd).map Prod.fst)).map Prod.snd ∧
      prov.current_assets = (resolveCurrentAssets t raw lbd).map Prod.snd ∧
      prov.current_liabilities = (resolveCurrentLiabilities t raw lbd).map Prod.snd ∧
      prov.retained_earnings = (resolveRetainedEarnings raw lbd).map Prod.snd ∧
      prov.ebit = (resolveEbit raw lfd).map Prod.snd ∧
      prov.sales = (resolveSales raw lfd).map Prod.snd ∧
      prov.market_cap = (resolveMarketCap raw.info).map Prod.snd) := by
  constructor
  · intro t raw lbd lfd h1 h2 hmiss
    obtain ⟨p, hp, hpn⟩ := hmiss
    unfold get_financial_data
    rw [h1, h2]
    unfold gfdCore
    dsimp only
    rw [if_neg]
    · exact ⟨_, _, rfl⟩
    · intro hc
      rw [List.isEmpty_iff] at hc
      have hm : p.2 ∈ missingList (gfdPairs t raw lbd lfd) :=
        (mem_missingList (gfdPairs t raw lbd lfd) p.2).mpr ⟨p, hp, hpn, rfl⟩
      rw [hc] at hm
      exact absurd hm (List.not_mem_nil _)
  · intro t raw lbd lfd names prov h1 h2 h3
    unfold get_financial_data at h3
    rw [h1, h2] at h3
    unfold gfdCore at h3
    dsimp only at h3
    split at h3
    · cases h3
    · rename_i hne
      injection h3 with hN hP
      have hL : names = missingList (gfdPairs t raw lbd lfd) := hN.symm
      subst hP
      refine ⟨?_, hL, ?_, rfl, ?_, ?_, ?_, ?_, ?_, ?_, ?_, ?_⟩
      · intro h
        rw [hN, h] at hne
        exact hne rfl
      · intro s
        rw [hL]
        exact mem_missingList (gfdPairs t raw lbd lfd) s
      · simp [gfdProv]
      · simp [gfdProv]
      · simp [gfdProv]
      · simp [gfdProv]
      · simp [gfdProv]
      · simp [gfdProv]
      · simp [gfdProv]
      · simp [gfdProv]

/-- Witness for C5 at `rawC5`: six quantities are missing, reported by
display name, with the provenance of the two resolved ones carried. -/
theorem missing_fields_enumeration_witness :
    namesC5 ≠ [] ∧ namesC5 = missingList (gfdPairs "T" rawC5 100 90) ∧
    provC5 = gfdProv "T" rawC5 100 90 := by
  have h := missing_fields_enumeration.2 "T" rawC5 100 90 namesC5 provC5
    (by decide) (by decide) (by decide)
  exact ⟨h.1, h.2.1, h.2.2.2.1⟩

/-- C6: the component-sum fallback for current assets succeeds exactly when
the cash component is present and at least 3 of the 5 components are; on
success the value is the sum of the present components with provenance
kind "calculated"; without cash, or with cash plus only one other
component, it produces no value. -/
theorem current_assets_component_fallback (raw : RawStatementSet) (lbd : Date) :
    (currentAssetsFromComponents raw lbd ≠ none ↔
      (gatherComponents raw lbd caComponentDefs).any (fun c => c.1 == "cash") = true ∧
      3 ≤ (gatherComponents raw lbd caComponentDefs).length) ∧
    (∀ v p, currentAssetsFromComponents raw lbd = some (v, p) →
      v = ((gatherComponents raw lbd caComponentDefs).map (fun c => c.2.1)).sum ∧
      p.2.2 = "calculated") ∧
    ((gatherComponents raw lbd caComponentDefs).any (fun c => c.1 == "cash") = false →
      currentAssetsFromComponents raw lbd = none) ∧
    ((gatherComponents raw lbd caComponentDefs).length = 2 →
      currentAssetsFromComponents raw lbd = none) := by
  have hiff : currentAssetsFromComponents raw lbd ≠ none ↔
      (gatherComponents raw lbd caComponentDefs).any (fun c => c.1 == "cash") = true ∧
      3 ≤ (gatherComponents raw lbd caComponentDefs).length := by
    unfold currentAssetsFromComponents
    dsimp only
    split
    · rename_i hcond
      rw [Bool.and_eq_true, decide_eq_true_iff] at hcond
      simp [hcond]
    · rename_i hcond
      rw [Bool.and_eq_true] at hcond
      constructor
      · intro h; exact absurd rfl h
      · rintro ⟨h1, h2⟩; exact absurd ⟨h1, decide_eq_true h2⟩ hcond
  have hval : ∀ v p, currentAssetsFromComponents raw lbd = some (v, p) →
      v = ((gatherComponents raw lbd caComponentDefs).map (fun c => c.2.1)).sum ∧
      p.2.2 = "calculated" := by
    intro v p h
    unfold currentAssetsFromComponents at h
    dsimp only at h
    split at h
    · injection h with h'
      injection h' with hv hp
      exact ⟨hv.symm, by rw [← hp]⟩
    · cases h
  refine ⟨hiff, hval, ?_, ?_⟩
  · intro h
    by_contra hne
    have hc := (hiff.mp hne).1
    rw [h] at hc
    cases hc
  · intro h
    by_contra hne
    have hc := (hiff.mp hne).2
    omega

/-- Witness for C6: with cash plus two other components the fallback
produces a value; with cash plus only one other component it does not. -/
theorem current_assets_component_fallback_witness :
    currentAssetsFromComponents rawC6a 100 ≠ none ∧
    currentAssetsFromComponents rawC6b 100 = none := by
  constructor
  · exact (current_assets_component_fallback rawC6a 100).1.mpr (by decide)
  · exact (current_assets_component_fallback rawC6b 100).2.2.2 (by decide)

/-- C9: for a ticker that uppercases to "AAPL", current assets and current
liabilities are pinned to the hard-coded values with provenance
("Manual override", latest, "hardcoded"), for every raw statement set —
direct lookup and component derivation are bypassed; for every other
ticker the two resolutions never carry the "hardcoded" source kind. -/
theorem aapl_hardcoded_override :
    (∀ t raw lbd, pyUpper t = "AAPL" →
      resolveCurrentAssets t raw lbd =
        some (143600000000, ("Manual override", ProvDate.latest, "hardcoded")) ∧
      resolveCurrentLiabilities t raw lbd =
        some (125600000000, ("Manual override", ProvDate.latest, "hardcoded"))) ∧
    (∀ t raw lbd v p, pyUpper t ≠ "AAPL" →
      resolveCurrentAssets t raw lbd = some (v, p) → p.2.2 ≠ "hardcoded") ∧
    (∀ t raw lbd v p, pyUpper t ≠ "AAPL" →
      resolveCurrentLiabilities t raw lbd = some (v, p) → p.2.2 ≠ "hardcoded") := by
  refine ⟨?_, ?_, ?_⟩
  · intro t raw lbd h
    constructor
    · unfold resolveCurrentAssets; rw [if_pos h]
    · unfold resolveCurrentLiabilities; rw [if_pos h]
  · intro t raw lbd v p h hr
    unfold resolveCurrentAssets at hr
    rw [if_neg h] at hr
    rcases hc : withProv "balance_sheet"
        (chain2 raw.balance_sheet (some lbd)
          raw.quarterly_balance_sheet (firstCol raw.quarterly_balance_sheet)
          ["Total Current Assets", "CurrentAssets", "totalCurrentAssets",
            "Current Assets", "Total Current Assets Total"]) with _ | r
    · rw [hc] at hr
      unfold currentAssetsFromComponents at hr
      dsimp only at hr
      split at hr
      · injection hr with hr'
        injection hr' with hv hp
        subst hp
        simp
      · cases hr
    · rw [hc] at hr
      rcases r with ⟨rv, rp⟩
      injection hr with hr'
      injection hr' with hv hp
      subst hp
      rcases hc2 : chain2 raw.balance_sheet (some lbd)
          raw.quarterly_balance_sheet (firstCol raw.quarterly_balance_sheet)
          ["Total Current Assets", "CurrentAssets", "totalCurrentAssets",
            "Current Assets", "Total Current Assets Total"] with _ | x
      · rw [hc2] at hc; cases hc
      · rw [hc2] at hc
        unfold withProv at hc
        injection hc with hc'
        injection hc'.symm with hv2 hp2
        subst hp2
        simp
  · intro t raw lbd v p h hr
    unfold resolveCurrentLiabilities at hr
    rw [if_neg h] at hr
    rcases hc : withProv "balance_sheet"
        (chain2 raw.balance_sheet (some lbd)
          raw.quarterly_balance_sheet (firstCol raw.quarterly_balance_sheet)
          ["Total Current Liabilities", "CurrentLiabilities", "totalCurrentLiabilities",
            "Current Liabilities", "Total Current Liabilities Total"]) with _ | r
    · rw [hc] at hr
      unfold currentLiabilitiesFromComponents at hr
      dsimp only at hr
      split at hr
      · injection hr with hr'
        injection hr' with hv hp
        subst hp
        simp
      · cases hr
    · rw [hc] at hr
      rcases r with ⟨rv, rp⟩
      injection hr with hr'
      injection hr' with hv hp
      subst hp
      rcases hc2 : chain2 raw.balance_sheet (some lbd)
          raw.quarterly_balance_sheet (firstCol raw.quarterly_balance_sheet)
          ["Total Current Liabilities", "CurrentLiabilities", "totalCurrentLiabilities",
            "Current Liabilities", "Total Current Liabilities Total"] with _ | x
      · rw [hc2] at hc; cases hc
      · rw [hc2] at hc
        unfold withProv at hc
        injection hc with hc'
        injection hc'.symm with hv2 hp2
        subst hp2
        simp

/-- Witness for C9: "aapl" is overridden even though `rawC9` carries both
fields directly; for ticker "T" on the same data the resolved provenance
kind is the statement name, not "hardcoded". -/
theorem aapl_hardcoded_override_witness :
    (resolveCurrentAssets "aapl" rawC9 7 =
      some (143600000000, ("Manual override", ProvDate.latest, "hardcoded")) ∧
     resolveCurrentLiabilities "aapl" rawC9 7 =
      some (125600000000, ("Manual override", ProvDate.latest, "hardcoded"))) ∧
    (("Total Current Assets", ProvDate.onDate 7, "balance_sheet") : Prov).2.2 ≠ "hardcoded" := by
  constructor
  · exact aapl_hardcoded_override.1 "aapl" rawC9 7 (by decide)
  · exact aapl_hardcoded_override.2.1 "T" rawC9 7 999
      ("Total Current Assets", ProvDate.onDate 7, "balance_sheet") (by decide) (by decide)

/-- Unfolding one step of the closest-income loop. -/
theorem ciFold_cons (bsd c : Date) (cs : List Date) (acc : Option Date × Int) :
    ciFold bsd (c :: cs) acc =
      ciFold bsd cs (if |bsd - c| < acc.2 then (some c, |bsd - c|) else acc) := rfl

/-- The best distance never increases along the loop. -/
theorem ciFold_snd_le (bsd : Date) :
    ∀ (cols : List Date) (acc : Option Date × Int),
      (ciFold bsd cols acc).2 ≤ acc.2 := by
  intro cols
  induction cols with
  | nil => intro acc; exact le_refl _
  | cons c cs ih =>
    intro acc
    rw [ciFold_cons]
    refine le_trans (ih _) ?_
    split
    · rename_i h; exact le_of_lt h
    · exact le_refl _

/-- The final best distance is at most the distance of every column. -/
theorem ciFold_le_of_mem (bsd : Date) :
    ∀ (cols : List Date) (acc : Option Date × Int) (c : Date), c ∈ cols →
      (ciFold bsd cols acc).2 ≤ |bsd - c| := by
  intro cols
  induction cols with
  | nil => intro acc c hc; cases hc
  | cons a cs ih =>
    intro acc c hc
    rw [ciFold_cons]
    rcases List.mem_cons.mp hc with h | h
    · subst h
      refine le_trans (ciFold_snd_le bsd cs _) ?_
      split
      · exact le_refl _
      · rename_i hlt; exact le_of_not_lt hlt
    · exact ih _ c h

/-- The loop either never updates the accumulator, or ends on some column
with exactly its distance. -/
theorem ciFold_cases (bsd : Date) :
    ∀ (cols : List Date) (acc : Option Date × Int),
      ciFold bsd cols acc = acc ∨
      ∃ cd ∈ cols, ciFold bsd cols acc = (some cd, |bsd - cd|) := by
  intro cols
  induction cols with
  | nil => intro acc; exact Or.inl rfl
  | cons a cs ih =>
    intro acc
    rw [ciFold_cons]
    split
    · rcases ih (some a, |bsd - a|) with h | ⟨cd, hcd, h⟩
      · exact Or.inr ⟨a, List.mem_cons_self a cs, h⟩
      · exact Or.inr ⟨cd, List.mem_cons_of_mem a hcd, h⟩
    · rcases ih acc with h | ⟨cd, hcd, h⟩
      · exact Or.inl h
      · exact Or.inr ⟨cd, List.mem_cons_of_mem a hcd, h⟩

/-- Soundness of the closest-income result: the returned column belongs to
the list, the returned distance is its distance, and no column is closer. -/
theorem closestIncome_spec (d : Date) (cols : List Date) (cd : Date) (cdiff : Int)
    (h : closestIncome d cols = (some cd, cdiff)) :
    cd ∈ cols ∧ cdiff = |d - cd| ∧ ∀ c ∈ cols, cdiff ≤ |d - c| := by
  have hca : ciFold d cols (none, 365) = (some cd, cdiff) := h
  rcases ciFold_cases d cols (none, 365) with hc | ⟨cd2, hcd2, hc⟩
  · rw [hca] at hc
    injection hc with h1 h2
    exact Option.noConfusion h1
  · rw [hca] at hc
    injection hc with h1 h2
    injection h1 with h1
    subst h1
    subst h2
    refine ⟨hcd2, rfl, ?_⟩
    intro c hcmem
    have hle : (ciFold d cols (none, 365)).2 ≤ |d - c| :=
      ciFold_le_of_mem d cols (none, 365) c hcmem
    rw [hca] at hle
    exact hle

/-- The pairing is rejected exactly when every income-statement column is
more than 180 days away. -/
theorem incomeMatchReject_iff (d : Date) (cols : List Date) :
    incomeMatchReject d cols = true ↔ ∀ c ∈ cols, 180 < |d - c| := by
  unfold incomeMatchReject
  rcases hci : closestIncome d cols with ⟨cdo, cdiff⟩
  rcases cdo with _ | cd
  · constructor
    · intro _ c hc
      have hca : ciFold d cols (none, 365) = (none, cdiff) := hci
      rcases ciFold_cases d cols (none, 365) with hc2 | ⟨cd2, hcd2, hc2⟩
      · rw [hca] at hc2
        injection hc2 with h1 h2
        have hle : (ciFold d cols (none, 365)).2 ≤ |d - c| :=
          ciFold_le_of_mem d cols (none, 365) c hc
        rw [hca] at hle
        dsimp only at hle
        rw [h2] at hle
        exact lt_of_lt_of_le (by norm_num) hle
      · rw [hca] at hc2
        injection hc2 with h1 h2
        exact Option.noConfusion h1
    · intro _
      rfl
  · have hspec := closestIncome_spec d cols cd cdiff hci
    constructor
    · intro h c hc
      have hd : 180 < cdiff := of_decide_eq_true h
      have hm := hspec.2.2 c hc
      exact lt_of_lt_of_le hd hm
    · intro h
      have h1 := h cd hspec.1
      have h2 : 180 < cdiff := by rw [hspec.2.1]; exact h1
      exact decide_eq_true h2

/-- A rejected pairing leaves the builder state unchanged. -/
theorem histStep_of_reject (bs fin : Table) (mc : Option Rat)
    (st : List HistPoint × List Int) (d : Date)
    (h : incomeMatchReject d fin.cols = true) :
    histStep bs fin mc st d = st := by
  unfold histStep
  dsimp only
  split
  · rfl
  · unfold incomeMatchReject at h
    rcases hci : closestIncome d fin.cols with ⟨_ | cd, cdiff⟩
    · rfl
    · rw [hci] at h
      have hd : 180 < cdiff := of_decide_eq_true h
      dsimp only
      rw [if_pos hd]

/-- An already-recorded calendar year leaves the builder state unchanged. -/
theorem histStep_of_used (bs fin : Table) (mc : Option Rat)
    (st : List HistPoint × List Int) (d : Date) (h : civilYear d ∈ st.2) :
    histStep bs fin mc st d = st := by
  unfold histStep
  dsimp only
  rw [if_pos h]

/-- Each builder step either leaves the state unchanged or, when the year
is new and everything is available, appends exactly one point carrying
that year and records the year. -/
theorem histStep_eq_or_append (bs fin : Table) (mc : Option Rat)
    (st : List HistPoint × List Int) (d : Date) :
    histStep bs fin mc st d = st ∨
    (civilYear d ∉ st.2 ∧ ∃ p : HistPoint, p.date = civilYear d ∧
      histStep bs fin mc st d = (st.1 ++ [p], st.2 ++ [civilYear d])) := by
  unfold histStep
  dsimp only
  split
  · exact Or.inl rfl
  · rename_i hmem
    split
    · exact Or.inl rfl
    · split
      · exact Or.inl rfl
      · split
        · exact Or.inr ⟨hmem, ⟨_, rfl, rfl⟩⟩
        · exact Or.inl rfl

/-- The builder fold appends at most one point per balance-sheet column. -/
theorem foldl_histStep_len (bs fin : Table) (mc : Option Rat) :
    ∀ (cols : List Date) (st : List HistPoint × List Int),
      (cols.foldl (histStep bs fin mc) st).1.length ≤ st.1.length + cols.length := by
  intro cols
  induction cols with
  | nil => intro st; simp
  | cons c cs ih =>
    intro st
    rw [List.foldl_cons]
    rcases histStep_eq_or_append bs fin mc st c with heq | ⟨_, p, _, heq⟩
    · rw [heq]
      have := ih st
      simp only [List.length_cons]
      omega
    · rw [heq]
      have := ih (st.1 ++ [p], st.2 ++ [civilYear c])
      simp only [List.length_append, List.length_cons, List.length_nil] at this ⊢
      omega

/-- Invariant of the builder fold: the recorded years are exactly the
years of the accumulated points, in order, without duplicates. -/
theorem foldl_histStep_inv (bs fin : Table) (mc : Option Rat) :
    ∀ (cols : List Date) (st : List HistPoint × List Int),
      st.1.map (fun p => p.date) = st.2 → st.2.Nodup →
      ((cols.foldl (histStep bs fin mc) st).1.map (fun p => p.date) =
        (cols.foldl (histStep bs fin mc) st).2 ∧
       (cols.foldl (histStep bs fin mc) st).2.Nodup) := by
  intro cols
  induction cols with
  | nil => intro st h1 h2; exact ⟨h1, h2⟩
  | cons c cs ih =>
    intro st h1 h2
    rw [List.foldl_cons]
    rcases histStep_eq_or_append bs fin mc st c with heq | ⟨hmem, p, hpd, heq⟩
    · rw [heq]; exact ih st h1 h2
    · rw [heq]
      apply ih
      · rw [List.map_append, h1]
        simp [hpd]
      · simp only [List.nodup_append, List.nodup_cons, List.not_mem_nil,
          not_false_iff, List.nodup_nil, and_true, true_and]
        refine ⟨h2, ?_⟩
        simp only [List.disjoint_singleton]
        exact hmem

/-- Sorting the series is a permutation. -/
theorem sortPts_perm (l : List HistPoint) : List.Perm (sortPts l) l :=
  List.perm_insertionSort _ l

/-- The sorted series is ascending by year. -/
theorem sortPts_sorted (l : List HistPoint) :
    List.Pairwise (fun a b : HistPoint => a.date ≤ b.date) (sortPts l) :=
  List.sorted_insertionSort _ l

/-- C7: the income-statement period paired with a balance-sheet period is
one at minimal absolute date distance among the income columns; the
pairing is rejected — and the builder step then produces nothing — exactly
when every income column is more than 180 days away; a nearest match at
exactly 180 days is not rejected by this rule, one at 181 days is. -/
theorem income_pairing_minimal_distance :
    (∀ (d : Date) (cols : List Date) (cd : Date) (cdiff : Int),
      closestIncome d cols = (some cd, cdiff) →
      cd ∈ cols ∧ cdiff = |d - cd| ∧ ∀ c ∈ cols, cdiff ≤ |d - c|) ∧
    (∀ (d : Date) (cols : List Date),
      incomeMatchReject d cols = true ↔ ∀ c ∈ cols, 180 < |d - c|) ∧
    (∀ (bs fin : Table) (mc : Option Rat) (st : List HistPoint × List Int) (d : Date),
      incomeMatchReject d fin.cols = true → histStep bs fin mc st d = st) ∧
    incomeMatchReject 0 [180] = false ∧
    incomeMatchReject 0 [181] = true := by
  refine ⟨closestIncome_spec, incomeMatchReject_iff, histStep_of_reject, by decide, by decide⟩

/-- Witness for C7 at the concrete input `rawC8`: the 2020-01-10 period is
345 days from the only income column, so it is rejected and the builder
step leaves the state unchanged; the nearest-column facts hold for it. -/
theorem income_pairing_minimal_distance_witness :
    (histStep rawC8.balance_sheet rawC8.financials (some 1) ([], []) 18271 = ([], [])) ∧
    ((18616 : Date) ∈ rawC8.financials.cols ∧ (345 : Int) = |(18271 : Date) - 18616|) := by
  constructor
  · exact income_pairing_minimal_distance.2.2.1 rawC8.balance_sheet rawC8.financials
      (some 1) ([], []) 18271 (by decide)
  · have h := income_pairing_minimal_distance.1 18271 rawC8.financials.cols 18616 345
      (by decide)
    exact ⟨h.1, h.2.1⟩

/-- Evaluation: the 2020 column of `rawC4` produces its point. -/
theorem histStep_rawC4_one :
    histStep rawC4.balance_sheet rawC4.financials rawC4.info.marketCap
      ([], []) 18262 = ([ptC4a], [2020]) := by
  have h1 : closestIncome 18262 rawC4.financials.cols = (some 18262, 0) := by decide
  have h2 : civilYear 18262 = 2020 := by decide
  have hv : histValues rawC4.balance_sheet rawC4.financials rawC4.info.marketCap
      18262 18262 = some ⟨1, 1, 2, 1, 1, 1, 1, 1⟩ := by decide
  rw [histStep, h1, h2]
  simp only [List.not_mem_nil, if_false, hv]
  norm_num [ptC4a, Prod.ext_iff, HistPoint.mk.injEq]

/-- Evaluation: the 2019 column of `rawC4` also produces its point. -/
theorem histStep_rawC4_two :
    histStep rawC4.balance_sheet rawC4.financials rawC4.info.marketCap
      ([ptC4a], [2020]) 17897 = ([ptC4a, ptC4b], [2020, 2019]) := by
  have h1 : closestIncome 17897 rawC4.financials.cols = (some 17897, 0) := by decide
  have h2 : civilYear 17897 = 2019 := by decide
  have hv : histValues rawC4.balance_sheet rawC4.financials rawC4.info.marketCap
      17897 17897 = some ⟨1, 1, 2, 1, 1, 1, 1, 1⟩ := by decide
  rw [histStep, h2]
  simp only [List.mem_cons, List.not_mem_nil, or_false, h1, hv]
  norm_num [ptC4a, ptC4b, Prod.ext_iff, HistPoint.mk.injEq]

/-- Evaluation: `get_historical_financials` on `rawC4` (with `maxYears`
argument 1) yields the sorted two-point series. -/
theorem ghf_rawC4_eval :
    get_historical_financials rawC4 1 = HistResult.ok (sortPts [ptC4a, ptC4b]) := by
  unfold get_historical_financials
  rw [show (rawC4.balance_sheet.isEmpty || rawC4.financials.isEmpty) = false by decide]
  dsimp only
  rw [show rawC4.balance_sheet.cols = [18262, 17897] from rfl]
  rw [List.foldl_cons, histStep_rawC4_one, List.foldl_cons, histStep_rawC4_two,
    List.foldl_nil]
  rfl

/-- Evaluation: the first (2020-01-10) column of `rawC8` is skipped: its
nearest income column is 345 days away. -/
theorem histStep_rawC8_one :
    histStep rawC8.balance_sheet rawC8.financials rawC8.info.marketCap
      ([], []) 18271 = ([], []) := by decide

/-- Evaluation: the second (2020-12-20) column of `rawC8` produces the
single 2020 point, from its own figures (Total Assets 2). -/
theorem histStep_rawC8_two :
    histStep rawC8.balance_sheet rawC8.financials rawC8.info.marketCap
      ([], []) 18616 = ([ptC8], [2020]) := by
  have h1 : closestIncome 18616 rawC8.financials.cols = (some 18616, 0) := by decide
  have h2 : civilYear 18616 = 2020 := by decide
  have hv : histValues rawC8.balance_sheet rawC8.financials rawC8.info.marketCap
      18616 18616 = some ⟨2, 1, 2, 1, 1, 1, 1, 1⟩ := by decide
  rw [histStep, h1, h2]
  simp only [List.not_mem_nil, if_false, hv]
  norm_num [ptC8, Prod.ext_iff, HistPoint.mk.injEq]

/-- Evaluation: `get_historical_financials` on `rawC8` yields exactly the
point built from the second same-year column. -/
theorem ghf_rawC8_eval :
    get_historical_financials rawC8 5 = HistResult.ok (sortPts [ptC8]) := by
  unfold get_historical_financials
  rw [show (rawC8.balance_sheet.isEmpty || rawC8.financials.isEmpty) = false by decide]
  dsimp only
  rw [show rawC8.balance_sheet.cols = [18271, 18616] from rfl]
  rw [List.foldl_cons, histStep_rawC8_one, List.foldl_cons, histStep_rawC8_two,
    List.foldl_nil]
  rfl

/-- Evaluation: the first column of `rawC10` is skipped (nearest income
column 345 days away). -/
theorem histStep_rawC10_one :
    histStep rawC10.balance_sheet rawC10.financials rawC10.info.marketCap
      ([], []) 18271 = ([], []) := by decide

/-- Evaluation: the second column of `rawC10` produces the single 2020
point, from its own figures (Total Assets 4). -/
theorem histStep_rawC10_two :
    histStep rawC10.balance_sheet rawC10.financials rawC10.info.marketCap
      ([], []) 18616 = ([ptC10], [2020]) := by
  have h1 : closestIncome 18616 rawC10.financials.cols = (some 18616, 0) := by decide
  have h2 : civilYear 18616 = 2020 := by decide
  have hv : histValues rawC10.balance_sheet rawC10.financials rawC10.info.marketCap
      18616 18616 = some ⟨4, 1, 2, 1, 1, 1, 1, 1⟩ := by decide
  rw [histStep, h1, h2]
  simp only [List.not_mem_nil, if_false, hv]
  norm_num [ptC10, Prod.ext_iff, HistPoint.mk.injEq]

/-- Evaluation: `get_historical_financials` on `rawC10`. -/
theorem ghf_rawC10_eval :
    get_historical_financials rawC10 5 = HistResult.ok (sortPts [ptC10]) := by
  unfold get_historical_financials
  rw [show (rawC10.balance_sheet.isEmpty || rawC10.financials.isEmpty) = false by decide]
  dsimp only
  rw [show rawC10.balance_sheet.cols = [18271, 18616] from rfl]
  rw [List.foldl_cons, histStep_rawC10_one, List.foldl_cons, histStep_rawC10_two,
    List.foldl_nil]
  rfl

/-- C4 counterexample: with `maxYears = 1`, the historical series built
for `rawC4` still contains 2 points — the `maxYears` parameter does not
bound the series length. -/
theorem maxYears_bound_violated :
    (histPoints (get_historical_financials rawC4 1)).length = 2 ∧
    ¬ ((histPoints (get_historical_financials rawC4 1)).length ≤ 1) := by
  have h : (histPoints (get_historical_financials rawC4 1)).length = 2 := by
    rw [ghf_rawC4_eval]
    show (sortPts [ptC4a, ptC4b]).length = 2
    rw [sortPts, List.length_insertionSort]
    rfl
  refine ⟨h, ?_⟩
  rw [h]
  omega

/-- C4 (amended): the `maxYears` parameter has no effect on the result of
the historical series builder; the number of points is bounded by the
number of balance-sheet period columns, not by `maxYears`. -/
theorem buildSeries_maxYears_unused :
    (∀ (raw : RawStatementSet) (y1 y2 : Nat),
      get_historical_financials raw y1 = get_historical_financials raw y2) ∧
    (∀ (raw : RawStatementSet) (y : Nat) (pts : List HistPoint),
      get_historical_financials raw y = HistResult.ok pts →
      pts.length ≤ raw.balance_sheet.cols.length) := by
  constructor
  · intro raw y1 y2
    rfl
  · intro raw y pts h
    unfold get_historical_financials at h
    split at h
    · cases h
    · dsimp only at h
      split at h
      · cases h
      · injection h with hpts
        rw [← hpts, sortPts, List.length_insertionSort]
        have hlen := foldl_histStep_len raw.balance_sheet raw.financials
          raw.info.marketCap raw.balance_sheet.cols ([], [])
        simpa using hlen

/-- Witness for the amended C4 at `rawC4`. -/
theorem buildSeries_maxYears_unused_witness :
    (sortPts [ptC4a, ptC4b]).length ≤ rawC4.balance_sheet.cols.length :=
  buildSeries_maxYears_unused.2 rawC4 1 (sortPts [ptC4a, ptC4b]) ghf_rawC4_eval

/-- C8 (amended): the historical series has at most one point per calendar
year (the point years are pairwise distinct) and is sorted ascending by
year; once a point has been produced for a year, every later balance-sheet
column of that year is ignored.  (The point for a year comes from the
first column of that year that successfully yields a point — a skipped
column does not claim the year; see the counterexample.) -/
theorem hist_series_one_point_per_year :
    (∀ (raw : RawStatementSet) (y : Nat) (pts : List HistPoint),
      get_historical_financials raw y = HistResult.ok pts →
      (pts.map (fun p => p.date)).Nodup ∧
      List.Pairwise (fun a b : HistPoint => a.date ≤ b.date) pts) ∧
    (∀ (bs fin : Table) (mc : Option Rat) (st : List HistPoint × List Int) (d : Date),
      civilYear d ∈ st.2 → histStep bs fin mc st d = st) := by
  constructor
  · intro raw y pts h
    unfold get_historical_financials at h
    split at h
    · cases h
    · dsimp only at h
      split at h
      · cases h
      · injection h with hpts
        have hinv := foldl_histStep_inv raw.balance_sheet raw.financials
          raw.info.marketCap raw.balance_sheet.cols ([], []) rfl List.nodup_nil
        have hnd : ((raw.balance_sheet.cols.foldl
            (histStep raw.balance_sheet raw.financials raw.info.marketCap)
            ([], [])).1.map (fun p => p.date)).Nodup := by
          rw [hinv.1]
          exact hinv.2
        constructor
        · rw [← hpts]
          have hperm := (sortPts_perm ((raw.balance_sheet.cols.foldl
            (histStep raw.balance_sheet raw.financials raw.info.marketCap)
            ([], [])).1)).map (fun p => p.date)
          exact hperm.nodup_iff.mpr hnd
        · rw [← hpts]
          exact sortPts_sorted _
  · exact histStep_of_used

/-- Witness for the amended C8 at `rawC8`. -/
theorem hist_series_one_point_per_year_witness :
    ((sortPts [ptC8]).map (fun p => p.date)).Nodup ∧
    List.Pairwise (fun a b : HistPoint => a.date ≤ b.date) (sortPts [ptC8]) :=
  hist_series_one_point_per_year.1 rawC8 5 (sortPts [ptC8]) ghf_rawC8_eval

/-- C8 counterexample: `rawC8` has two balance-sheet periods in calendar
year 2020; the first-encountered one is skipped (its nearest income column
is 345 days away), and the single 2020 point carries the second period's
figures — its working-capital ratio is 1/2, not the 1 the first period's
figures (current assets 2, current liabilities 1, total assets 1) would
give.  The single point for the year does not come from the
first-encountered period. -/
theorem same_year_point_from_later_period :
    histPoints (get_historical_financials rawC8 5) = [ptC8] ∧
    rawC8.balance_sheet.cols = [18271, 18616] ∧
    civilYear 18271 = civilYear 18616 ∧
    optField rawC8.balance_sheet "Total Assets" 18271 = some 1 ∧
    ptC8.working_capital_ratio ≠ ((2 : Rat) - 1) / 1 := by
  refine ⟨?_, rfl, by decide, by decide, by norm_num [ptC8]⟩
  rw [ghf_rawC8_eval]
  rfl

/-- C10: a calendar year is recorded as used only when a point is actually
produced for it (whenever a builder step changes the recorded-year list it
also appends exactly one point); on `rawC10`, whose first 2020 column is
rejected by the 180-day rule, the single 2020 point carries the second
column's figures (working-capital ratio 1/4, not the 1 the first column
would give) — a skipped period does not suppress later columns of the same
year. -/
theorem year_recorded_only_on_point :
    (∀ (bs fin : Table) (mc : Option Rat) (pts : List HistPoint)
        (used : List Int) (d : Date),
      (histStep bs fin mc (pts, used) d).2 ≠ used →
      (histStep bs fin mc (pts, used) d).2 = used ++ [civilYear d] ∧
      (histStep bs fin mc (pts, used) d).1.length = pts.length + 1) ∧
    histPoints (get_historical_financials rawC10 5) = [ptC10] ∧
    rawC10.balance_sheet.cols = [18271, 18616] ∧
    civilYear 18271 = civilYear 18616 ∧
    incomeMatchReject 18271 rawC10.financials.cols = true ∧
    optField rawC10.balance_sheet "Total Assets" 18271 = some 1 ∧
    ptC10.working_capital_ratio ≠ ((2 : Rat) - 1) / 1 := by
  refine ⟨?_, ?_, rfl, by decide, by decide, by decide, by norm_num [ptC10]⟩
  · intro bs fin mc pts used d hne
    rcases histStep_eq_or_append bs fin mc (pts, used) d with heq | ⟨hmem, p, hpd, heq⟩
    · rw [heq] at hne
      exact absurd rfl hne
    · rw [heq]
      constructor
      · rfl
      · simp
  · rw [ghf_rawC10_eval]
    rfl

/-- Witness for C10: the step on the second 2020 column of `rawC10`
records the year and appends exactly one point. -/
theorem year_recorded_only_on_point_witness :
    (histStep rawC10.balance_sheet rawC10.financials rawC10.info.marketCap
      ([], []) 18616).2 = [] ++ [civilYear 18616] ∧
    (histStep rawC10.balance_sheet rawC10.financials rawC10.info.marketCap
      ([], []) 18616).1.length = ([] : List HistPoint).length + 1 := by
  apply year_recorded_only_on_point.1
  rw [histStep_rawC10_two]
  intro h
  cases h
